import Mathlib

/-
Verification of the JSON-extraction / analysis pipeline of
`src/solar.py` (class `SolarAnalysisAI` and `main`).

The pure logic of the Python program is shallowly embedded below:

* `Json` and `json_loads` model Python's `json.loads` (the standard
  recursive-descent JSON grammar, including Python's acceptance of
  `NaN` / `Infinity` / `-Infinity`, last-wins duplicate object keys and
  the "Extra data" check at top level).  Numbers are kept as their
  lexemes, which is all the program ever compares; `\uXXXX` escapes are
  mapped through `Char.ofNat` (surrogate pairing is not modelled).
* `firstIdx?` / `lastIdx?` / `pyFind` / `pyRfind` / `pySlice` /
  `pyStrip` model the Python `str` operations `find`, `rfind`,
  slicing and `strip` used by `analyze_rooftop`.
* `Img`, `normalizeImage`, `encode_image` model `SolarAnalysisAI.encode_image`
  (PIL mode handling; the external JPEG codec is modelled as the raw
  pixel bytes, and base64 is implemented faithfully).
* `build_prompt` models the f-string prompt of `analyze_rooftop`.
* `resolveApiKey` models the credential resolution in `main`.
* `analyze_rooftop` models `SolarAnalysisAI.analyze_rooftop` as a
  function of the image, the inputs and the outcome of the single
  `requests.post` call (`NetResult`); its observable behaviour is an
  `AnalyzeOutcome`: an exception escaping the function, a displayed
  error branch followed by `return None`, or a returned parsed object.
-/

/-! ## JSON values and a model of Python `json.loads` -/

/-- A parsed JSON value as produced by Python's `json.loads`.
Numbers are represented by their lexeme (Python distinguishes
`1` from `1.0` anyway); objects are insertion-ordered key/value
lists with last-wins duplicate handling, mirroring `dict`. -/
inductive Json where
  | null
  | bool (b : Bool)
  | num (lexeme : String)
  | str (s : String)
  | arr (elems : List Json)
  | obj (fields : List (String × Json))

/-- JSON insignificant whitespace (as in Python's `json` module). -/
def isJsonWs (c : Char) : Bool :=
  c = ' ' ∨ c = '\t' ∨ c = '\n' ∨ c = '\r'

def skipWs (cs : List Char) : List Char :=
  cs.dropWhile isJsonWs

/-- Value of a hexadecimal digit. -/
def hexVal (c : Char) : Option Nat :=
  if '0' ≤ c ∧ c ≤ '9' then some (c.toNat - '0'.toNat)
  else if 'a' ≤ c ∧ c ≤ 'f' then some (c.toNat - 'a'.toNat + 10)
  else if 'A' ≤ c ∧ c ≤ 'F' then some (c.toNat - 'A'.toNat + 10)
  else none

/-- Single-character string escapes accepted by `json.loads`. -/
def escMap (c : Char) : Option Char :=
  if c = '"' then some '"'
  else if c = '\\' then some '\\'
  else if c = '/' then some '/'
  else if c = 'b' then some '\x08'
  else if c = 'f' then some '\x0c'
  else if c = 'n' then some '\n'
  else if c = 'r' then some '\r'
  else if c = 't' then some '\t'
  else none

/-- Parse the body of a JSON string after the opening quote, returning
the decoded characters and the input after the closing quote.  Unescaped
control characters are rejected (`json.loads` default `strict=True`). -/
def parseStringBody : List Char → Except String (List Char × List Char)
  | [] => .error "Unterminated string"
  | '"' :: rest => .ok ([], rest)
  | '\\' :: 'u' :: h1 :: h2 :: h3 :: h4 :: rest =>
      match hexVal h1, hexVal h2, hexVal h3, hexVal h4 with
      | some a, some b, some c, some d =>
          (parseStringBody rest).map
            (fun p => (Char.ofNat (((a * 16 + b) * 16 + c) * 16 + d) :: p.1, p.2))
      | _, _, _, _ => .error "Invalid \\uXXXX escape"
  | '\\' :: e :: rest =>
      match escMap e with
      | some c => (parseStringBody rest).map (fun p => (c :: p.1, p.2))
      | none => .error "Invalid \\escape"
  | c :: rest =>
      if c.toNat < 32 then .error "Invalid control character"
      else (parseStringBody rest).map (fun p => (c :: p.1, p.2))

/-- Lex a JSON number (or the Python-accepted constants `NaN`,
`Infinity`, `-Infinity`), returning its lexeme and the rest.  Mirrors
the `json` module's regular expression: the fraction is taken only when
`.` is followed by a digit, the exponent only when `e`/`E` (with an
optional sign) is followed by a digit, so e.g. `1e` lexes as `1`
leaving `e` behind (which then fails as extra data). -/
def parseNumber (cs : List Char) : Except String (String × List Char) :=
  match cs with
  | 'N' :: 'a' :: 'N' :: r => .ok ("NaN", r)
  | 'I' :: 'n' :: 'f' :: 'i' :: 'n' :: 'i' :: 't' :: 'y' :: r => .ok ("Infinity", r)
  | '-' :: 'I' :: 'n' :: 'f' :: 'i' :: 'n' :: 'i' :: 't' :: 'y' :: r => .ok ("-Infinity", r)
  | _ =>
    let sgn : List Char × List Char :=
      match cs with
      | '-' :: r => (['-'], r)
      | _ => ([], cs)
    match sgn.2 with
    | [] => .error "Expecting value"
    | c :: r1 =>
      if c.isDigit then
        let ip : List Char × List Char :=
          if c = '0' then ([], r1) else r1.span Char.isDigit
        let intPart := c :: ip.1
        let r2 := ip.2
        let fp : List Char × List Char :=
          match r2 with
          | '.' :: d :: rr =>
            if d.isDigit then
              let ds := rr.span Char.isDigit
              ('.' :: d :: ds.1, ds.2)
            else ([], r2)
          | _ => ([], r2)
        let r3 := fp.2
        let ep : List Char × List Char :=
          match r3 with
          | e :: tail =>
            if e = 'e' ∨ e = 'E' then
              let sg : List Char × List Char :=
                match tail with
                | c2 :: t2 => if c2 = '+' ∨ c2 = '-' then ([c2], t2) else ([], tail)
                | [] => ([], tail)
              match sg.2 with
              | d :: t3 =>
                if d.isDigit then
                  let ds := t3.span Char.isDigit
                  (e :: (sg.1 ++ d :: ds.1), ds.2)
                else ([], r3)
              | [] => ([], r3)
            else ([], r3)
          | [] => ([], r3)
        .ok (String.mk (sgn.1 ++ intPart ++ fp.1 ++ ep.1), ep.2)
      else .error "Expecting value"

/-- Insert a key/value pair into an object's field list the way a
Python `dict` built by `json.loads` does: an existing key keeps its
position but gets the new value, otherwise the pair is appended. -/
def addField (acc : List (String × Json)) (k : String) (v : Json) :
    List (String × Json) :=
  if acc.any (fun p => p.1 = k) then
    acc.map (fun p => if p.1 = k then (k, v) else p)
  else acc ++ [(k, v)]

/-- Parser task: a whole value, the members of an object after its
opening brace (accumulating parsed fields), or the elements of an
array after its opening bracket. -/
inductive PTask where
  | val
  | objMember (acc : List (String × Json))
  | arrElems (acc : List Json)

/-- Fuel-indexed recursive-descent JSON parser (the structure of
Python's `json` scanner).  Every recursive call strictly decreases the
fuel; `json_loads` supplies fuel ample for its input. -/
def parseP : Nat → PTask → List Char → Except String (Json × List Char)
  | 0, _, _ => .error "Expecting value"
  | f + 1, .val, cs =>
    match skipWs cs with
    | [] => .error "Expecting value"
    | c :: rest =>
      if c = '\x7b' then
        match skipWs rest with
        | '\x7d' :: r => .ok (.obj [], r)
        | r => parseP f (.objMember []) r
      else if c = '[' then
        match skipWs rest with
        | ']' :: r => .ok (.arr [], r)
        | r => parseP f (.arrElems []) r
      else if c = '"' then
        (parseStringBody rest).map (fun p => (.str (String.mk p.1), p.2))
      else if c = 't' then
        match rest with
        | 'r' :: 'u' :: 'e' :: r => .ok (.bool true, r)
        | _ => .error "Expecting value"
      else if c = 'f' then
        match rest with
        | 'a' :: 'l' :: 's' :: 'e' :: r => .ok (.bool false, r)
        | _ => .error "Expecting value"
      else if c = 'n' then
        match rest with
        | 'u' :: 'l' :: 'l' :: r => .ok (.null, r)
        | _ => .error "Expecting value"
      else
        (parseNumber (c :: rest)).map (fun p => (.num p.1, p.2))
  | f + 1, .objMember acc, cs =>
    match skipWs cs with
    | '"' :: rest =>
      match parseStringBody rest with
      | .error e => .error e
      | .ok (keyChars, cs1) =>
        match skipWs cs1 with
        | ':' :: cs2 =>
          match parseP f .val cs2 with
          | .error e => .error e
          | .ok (v, cs3) =>
            let acc' := addField acc (String.mk keyChars) v
            match skipWs cs3 with
            | ',' :: cs4 => parseP f (.objMember acc') cs4
            | '\x7d' :: cs4 => .ok (.obj acc', cs4)
            | _ => .error "Expecting ',' delimiter"
        | _ => .error "Expecting ':' delimiter"
    | _ => .error "Expecting property name enclosed in double quotes"
  | f + 1, .arrElems acc, cs =>
    match parseP f .val cs with
    | .error e => .error e
    | .ok (v, cs1) =>
      match skipWs cs1 with
      | ',' :: cs2 => parseP f (.arrElems (acc ++ [v])) cs2
      | ']' :: cs2 => .ok (.arr (acc ++ [v]), cs2)
      | _ => .error "Expecting ',' delimiter"

/-- Model of Python `json.loads`: parse one value, then require only
whitespace to remain (otherwise `Extra data`). -/
def json_loads (s : String) : Except String Json :=
  match parseP (2 * s.length + 4) .val s.toList with
  | .error e => .error e
  | .ok (j, rest) =>
    if (skipWs rest).isEmpty then .ok j else .error "Extra data"

example : json_loads "" = .error "Expecting value" := rfl
example : json_loads "\x7b\"a\":1\x7d" = .ok (.obj [("a", .num "1")]) := rfl
example : json_loads "\x7bnot valid json\x7d" =
    .error "Expecting property name enclosed in double quotes" := rfl

/-! ## Python string operations used by `analyze_rooftop` -/

/-- Index of the first occurrence of `c`, if any
(the success case of Python's `str.find`). -/
def firstIdx? (c : Char) : List Char → Option Nat
  | [] => none
  | x :: xs => if x = c then some 0 else (firstIdx? c xs).map (· + 1)

/-- Index of the last occurrence of `c`, if any
(the success case of Python's `str.rfind`). -/
def lastIdx? (c : Char) : List Char → Option Nat
  | [] => none
  | x :: xs =>
    match lastIdx? c xs with
    | some i => some (i + 1)
    | none => if x = c then some 0 else none

/-- Python `str.find`: first index of `c`, `-1` when absent. -/
def pyFind (s : String) (c : Char) : Int :=
  match firstIdx? c s.toList with
  | some i => (i : Int)
  | none => -1

/-- Python `str.rfind`: last index of `c`, `-1` when absent. -/
def pyRfind (s : String) (c : Char) : Int :=
  match lastIdx? c s.toList with
  | some i => (i : Int)
  | none => -1

/-- Resolution of one Python slice bound against a string of length
`n`: negative indices count from the end, out-of-range indices are
clamped. -/
def pySliceIdx (s : String) (x : Int) : Nat :=
  if x < 0 then ((s.toList.length : Int) + x).toNat
  else min x.toNat s.toList.length

/-- Python slice `s[a:b]` (an empty range yields `""`). -/
def pySlice (s : String) (a b : Int) : String :=
  String.mk ((s.toList.drop (pySliceIdx s a)).take (pySliceIdx s b - pySliceIdx s a))

/-- Characters removed by Python `str.strip()`. -/
def isPySpace (c : Char) : Bool :=
  c = ' ' ∨ c = '\t' ∨ c = '\n' ∨ c = '\r' ∨ c = '\x0b' ∨ c = '\x0c'

/-- Python `str.strip()`. -/
def pyStrip (s : String) : String :=
  String.mk (((s.toList.dropWhile isPySpace).reverse.dropWhile isPySpace).reverse)

example : pyFind "a\x7bc" '\x7b' = 1 := rfl
example : pyRfind "ab" '\x7d' = -1 := rfl
example : pySlice "hello" 1 3 = "el" := rfl
example : pySlice "hello" 3 1 = "" := rfl
example : pyStrip "  \n x \t" = "x" := rfl

/-! ## Image model (`SolarAnalysisAI.encode_image`) -/

/-- PIL pixel modes relevant to the images the app accepts
(png / jpg / jpeg uploads): truecolor with and without alpha,
grayscale with and without alpha, and palette. -/
inductive Mode where
  | RGBA
  | RGB
  | L
  | LA
  | P
deriving DecidableEq

/-- An in-memory image: mode, size, row-major pixels (each pixel a
list of channel values), and the palette (used only in mode `P`). -/
structure Img where
  mode : Mode
  width : Nat
  height : Nat
  px : List (List (List Nat))
  palette : List (List Nat)
deriving DecidableEq

/-- Alpha blending of one channel onto a background channel, as done by
`Image.paste` with an alpha mask. -/
def blend (fg bg a : Nat) : Nat :=
  (fg * a + bg * (255 - a)) / 255

/-- One RGBA pixel pasted onto opaque white
(`background.paste(image, mask=image.split()[3])` in the source). -/
def compositeWhitePixel : List Nat → List Nat
  | [r, g, b, a] => [blend r 255 a, blend g 255 a, blend b 255 a]
  | _ => [255, 255, 255]

/-- The source's RGBA branch: a white RGB background of the same size
with the image pasted on using its alpha channel as the mask. -/
def compositeOnWhite (img : Img) : Img :=
  { mode := .RGB, width := img.width, height := img.height,
    px := img.px.map (fun row => row.map compositeWhitePixel),
    palette := [] }

/-- Per-pixel effect of PIL `Image.convert('RGB')`: grayscale is
replicated into three channels, alpha is dropped (no compositing),
palette indices are looked up. -/
def toRGBPixel (palette : List (List Nat)) : Mode → List Nat → List Nat
  | .LA, [l, _a] => [l, l, l]
  | .RGBA, [r, g, b, _a] => [r, g, b]
  | .P, [i] =>
    match palette.get? i with
    | some c => c.take 3
    | none => [0, 0, 0]
  | _, p => p.take 3

/-- The source's `image.convert('RGB')` branch. -/
def convertRGB (img : Img) : Img :=
  { mode := .RGB, width := img.width, height := img.height,
    px := img.px.map (fun row => row.map (toRGBPixel img.palette img.mode)),
    palette := [] }

/-- The mode-normalization part of `encode_image` (lines 21-28 of the
source): `RGBA` is pasted onto white, `RGB` and `L` pass through
unchanged, every other mode goes through `convert('RGB')`. -/
def normalizeImage (img : Img) : Img :=
  if img.mode = .RGBA then compositeOnWhite img
  else if img.mode = .RGB ∨ img.mode = .L then img
  else convertRGB img

/-- Whether a pixel mode carries an alpha channel. -/
def modeHasAlpha : Mode → Bool
  | .RGBA => true
  | .LA => true
  | _ => false

/-- Modelled from the spec: "converts any alpha-carrying format by
compositing onto an opaque white background using the alpha channel as
a mask" — the compositing applied uniformly to both alpha-carrying
modes (`RGBA` and `LA`), for comparison against `normalizeImage`. -/
def specWhiteCompositePixel : Mode → List Nat → List Nat
  | .RGBA, [r, g, b, a] => [blend r 255 a, blend g 255 a, blend b 255 a]
  | .LA, [l, a] => [blend l 255 a, blend l 255 a, blend l 255 a]
  | _, p => p

/-- Modelled from the spec: white compositing of any alpha-carrying
image, keeping its size and dropping the alpha channel. -/
def specWhiteComposite (img : Img) : Img :=
  { mode := .RGB, width := img.width, height := img.height,
    px := img.px.map (fun row => row.map (specWhiteCompositePixel img.mode)),
    palette := [] }

/-- `image.save(buffer, format="JPEG")`: the external codec is modelled
as the flattened pixel bytes; PIL raises (modelled as `none`) when the
image has zero width or height. -/
def saveJPEG (img : Img) : Option (List Nat) :=
  if img.width = 0 ∨ img.height = 0 then none
  else some ((img.px.flatten.flatten).map (· % 256))

/-- One character of the base64 alphabet. -/
def b64Char (n : Nat) : Char :=
  (("ABCDEFGHIJKLMNOPQRSTUVWXYZabcdefghijklmnopqrstuvwxyz0123456789+/").toList.getD n 'A')

/-- Standard base64 with padding (`base64.b64encode(...).decode()`). -/
def base64Encode : List Nat → String
  | [] => ""
  | [a] => String.mk [b64Char (a / 4), b64Char (a % 4 * 16), '=', '=']
  | [a, b] => String.mk [b64Char (a / 4), b64Char (a % 4 * 16 + b / 16), b64Char (b % 16 * 4), '=']
  | a :: b :: c :: r =>
    String.mk [b64Char (a / 4), b64Char (a % 4 * 16 + b / 16),
               b64Char (b % 16 * 4 + c / 64), b64Char (c % 64)] ++ base64Encode r

/-- `SolarAnalysisAI.encode_image`: normalize the pixel mode, save as
JPEG, base64-encode.  `none` models the PIL exception escaping the
method (nothing in `encode_image` catches it). -/
def encode_image (img : Img) : Option String :=
  match saveJPEG (normalizeImage img) with
  | none => none
  | some bytes => some (base64Encode bytes)

example : base64Encode [77, 97, 110] = "TWFu" := rfl
example : encode_image ⟨.RGB, 0, 0, [], []⟩ = none := rfl

/-! ## Prompt construction (the f-string in `analyze_rooftop`) -/

/-- Split a digit list (least significant first) into groups of three
for thousands separators. -/
def chunk3 : List Char → List (List Char)
  | a :: b :: c :: d :: r => [a, b, c] :: chunk3 (d :: r)
  | l => [l]

/-- Decimal digits of `n` with `,` thousands separators
(the integer part of Python's `format(n, ',.2f')`). -/
def commaGroup (n : Nat) : String :=
  let rev := (Nat.toDigits 10 n).reverse
  String.intercalate "," (((chunk3 rev).map List.reverse).reverse.map String.mk)

/-- Python `f"{budget:,.2f}"`.  The budget is modelled as an exact
number of cents (the app's budget widget produces whole-dollar
integers; float rounding is outside this model). -/
def formatCurrency (cents : Nat) : String :=
  commaGroup (cents / 100) ++ "." ++
    (if cents % 100 < 10 then "0" ++ toString (cents % 100) else toString (cents % 100))

example : formatCurrency 2500000 = "25,000.00" := rfl
example : formatCurrency 105 = "1.05" := rfl

/-- The fixed part of the instruction template after the budget line
(source lines 43-87), with the schema the model must answer in. -/
def promptTail : String := String.intercalate "\n" [
  "        ",
  "        Analyze this satellite/aerial image and provide a comprehensive assessment in the following JSON format:",
  "        ",
  "        \x7b",
  "            \"roof_analysis\": \x7b",
  "                \"roof_type\": \"flat/pitched/hip/gable\",",
  "                \"roof_area_sqft\": estimated_total_area,",
  "                \"usable_area_sqft\": area_suitable_for_panels,",
  "                \"orientation\": \"primary_roof_direction\",",
  "                \"tilt_angle\": estimated_degrees,",
  "                \"shading_assessment\": \"minimal/moderate/significant\",",
  "                \"obstacles\": [\"list\", \"of\", \"obstacles\"]",
  "            \x7d,",
  "            \"solar_potential\": \x7b",
  "                \"recommended_system_size_kw\": calculated_size,",
  "                \"estimated_panels_count\": number_of_panels,",
  "                \"annual_energy_production_kwh\": estimated_production,",
  "                \"capacity_factor\": percentage,",
  "                \"optimal_panel_type\": \"monocrystalline/polycrystalline/thin_film\"",
  "            \x7d,",
  "            \"financial_analysis\": \x7b",
  "                \"estimated_system_cost\": total_cost,",
  "                \"cost_per_watt\": cost_per_watt,",
  "                \"annual_savings\": estimated_annual_savings,",
  "                \"payback_period_years\": calculated_payback,",
  "                \"roi_percentage\": return_on_investment,",
  "                \"net_present_value\": npv_calculation",
  "            \x7d,",
  "            \"installation_considerations\": \x7b",
  "                \"structural_assessment\": \"suitable/needs_evaluation/not_suitable\",",
  "                \"electrical_requirements\": \"description\",",
  "                \"permit_complexity\": \"simple/moderate/complex\",",
  "                \"installation_timeline\": \"estimated_weeks\"",
  "            \x7d,",
  "            \"recommendations\": \x7b",
  "                \"proceed_with_installation\": true_or_false,",
  "                \"priority_improvements\": [\"list\", \"of\", \"suggestions\"],",
  "                \"alternative_solutions\": [\"if\", \"applicable\"],",
  "                \"next_steps\": [\"recommended\", \"actions\"]",
  "            \x7d",
  "        \x7d",
  "        ",
  "        Base your analysis on visible roof characteristics, estimated dimensions, shading from trees/buildings, ",
  "        roof condition, and typical solar installation parameters for the given location and budget.",
  "        "]

/-- The instruction text built by `analyze_rooftop` (source lines
38-87): a pure function of the location and the budget. -/
def build_prompt (location : String) (budgetCents : Nat) : String :=
  "\n        You are an expert solar energy consultant analyzing a rooftop for solar panel installation potential. \n        \n        Location: "
    ++ location
    ++ "\n        Budget: $" ++ formatCurrency budgetCents ++ "\n"
    ++ promptTail

/-! ## Credential resolution (`main`, source lines 300-311) -/

/-- `api_key = os.getenv("OPENROUTER_API_KEY")`, then
`if not api_key: api_key = st.text_input(...)`: the sidebar text input
(the explicit parameter) is consulted only when the environment
variable is unset (`none`) or empty (Python falsiness). -/
def resolveApiKey (env : Option String) (entered : String) : String :=
  match env with
  | none => entered
  | some k => if k = "" then entered else k

/-! ## The `analyze_rooftop` pipeline -/

/-- The outcome of the single `requests.post` call: either
`requests` raised a `RequestException`, or it produced a response
with a status code and a body text. -/
inductive NetResult where
  | exn (msg : String)
  | resp (status : Nat) (body : String)

/-- The distinct error branches of `analyze_rooftop`.  Each branch
displays its own message (and diagnostic payload) via `st.error` /
`st.write` and then executes `return None`.  The payloads carried here
are the diagnostics the branch displays. -/
inductive Failure where
  | apiRequestFailed (msg : String)
  | emptyResponse
  | invalidJsonResponse (err : String)
  | unexpectedStructure (result : Json)
  | noJsonFound (content : String)
  | parseFailed (err : String) (jsonStr : String)
  | unexpectedError (msg : String)

/-- The observable behaviour of one call to `analyze_rooftop`: an
exception escaping the method, an error branch followed by
`return None`, or a returned parsed object. -/
inductive AnalyzeOutcome where
  | raised (msg : String)
  | failedNone (f : Failure)
  | success (report : Json)

/-- The value the caller receives: `none` when the call raised (no
value at all), `some none` when the method returned Python `None`,
`some (some j)` when it returned the parsed object `j`. -/
def returnedValue : AnalyzeOutcome → Option (Option Json)
  | .raised _ => none
  | .failedNone _ => some none
  | .success j => some (some j)

/-- A numeric tag for the error branch taken, `none` on success or
escape; used to state that different failures are (or are not)
distinguishable. -/
def failureKind : AnalyzeOutcome → Option Nat
  | .failedNone (.apiRequestFailed _) => some 0
  | .failedNone .emptyResponse => some 1
  | .failedNone (.invalidJsonResponse _) => some 2
  | .failedNone (.unexpectedStructure _) => some 3
  | .failedNone (.noJsonFound _) => some 4
  | .failedNone (.parseFailed _ _) => some 5
  | .failedNone (.unexpectedError _) => some 6
  | _ => none

/-- `json.loads(json_str)` under the `try` of source lines 155-160:
a parse failure displays the error and the extracted substring and
returns `None`. -/
def jsonLoadsStep (jsonStr : String) : AnalyzeOutcome :=
  match json_loads jsonStr with
  | .ok j => .success j
  | .error e => .failedNone (.parseFailed e jsonStr)

/-- Source lines 144-160, with `json_start = content.find('\x7b')` and
`json_end = content.rfind('\x7d') + 1`: when `json_start == -1 or
json_end == 0` the branch displays the full reply and returns `None`;
otherwise `content[json_start:json_end]` is parsed. -/
def contentStep (content : String) : AnalyzeOutcome :=
  if pyFind content '\x7b' = -1 ∨ pyRfind content '\x7d' + 1 = 0 then
    .failedNone (.noJsonFound content)
  else
    jsonLoadsStep (pySlice content (pyFind content '\x7b') (pyRfind content '\x7d' + 1))

/-- Python truthiness of a `json.loads` value (`not result['choices']`
at source line 137). -/
def pyFalsy : Json → Bool
  | .null => true
  | .bool b => !b
  | .num lex =>
    (lex.toList.takeWhile (fun c => c ≠ 'e' ∧ c ≠ 'E')).all
      (fun c => c = '0' ∨ c = '-' ∨ c = '+' ∨ c = '.')
  | .str s => s = ""
  | .arr a => a.isEmpty
  | .obj f => f.isEmpty

/-- Whether `needle` occurs as a contiguous substring of `hay`
(Python `in` on strings). -/
def strContainsSub (hay needle : List Char) : Bool :=
  if needle.isPrefixOf hay then true
  else
    match hay with
    | [] => false
    | _ :: t => strContainsSub t needle

/-- The test `'choices' not in result or not result['choices']` of
source line 137.  `some true` means the condition holds (the
"Unexpected API response structure" branch), `some false` that it
fails (execution continues), `none` that evaluating it raises
(`in` on a number, or indexing a non-dict), landing in the generic
`except Exception` branch. -/
def choicesCheck (result : Json) : Option Bool :=
  match result with
  | .obj fs =>
    match fs.find? (fun p => p.1 = "choices") with
    | none => some true
    | some p => some (pyFalsy p.2)
  | .str s =>
    if strContainsSub s.toList "choices".toList then none else some true
  | .arr a =>
    if a.any (fun x => match x with | .str s => s = "choices" | _ => false)
    then none else some true
  | _ => none

/-- Python `x[n]` for an integer index: list indexing, or
single-character indexing of a string; anything else raises. -/
def pyGetItemNat (j : Json) (n : Nat) : Option Json :=
  match j with
  | .arr a => a.get? n
  | .str s => (s.toList.get? n).map (fun ch => Json.str (String.mk [ch]))
  | _ => none

/-- Python `x[k]` for a string key: dict lookup (`none` is a
`KeyError`); anything else raises a `TypeError`. -/
def pyGetItemStr (j : Json) (k : String) : Option Json :=
  match j with
  | .obj fs => (fs.find? (fun p => p.1 = k)).map (fun p => p.2)
  | _ => none

/-- `result['choices'][0]['message']['content']` (source line 142). -/
def extractContent (result : Json) : Option Json :=
  (pyGetItemStr result "choices").bind fun c =>
    (pyGetItemNat c 0).bind fun c0 =>
      (pyGetItemStr c0 "message").bind fun m =>
        pyGetItemStr m "content"

/-- `SolarAnalysisAI.analyze_rooftop` as a function of the image, the
user inputs and the outcome of the one `requests.post` call.
`encode_image` runs before the `try` block, so its exception escapes
the method; inside the `try`, `raise_for_status` throws
`requests.exceptions.HTTPError` (a `RequestException`) for 4xx/5xx
status codes; an empty (all-whitespace) body, an unparsable body and a
missing/falsy `choices` key take their dedicated branches; a failure
while drilling to the message content lands in the generic
`except Exception` branch; the reply text then goes through the JSON
extraction of `contentStep`. -/
def analyze_rooftop (img : Img) (location : String) (budgetCents : Nat)
    (net : NetResult) : AnalyzeOutcome :=
  match encode_image img with
  | none => .raised "image encoding failed"
  | some _image_b64 =>
    let _prompt := build_prompt location budgetCents
    match net with
    | .exn msg => .failedNone (.apiRequestFailed msg)
    | .resp status body =>
      if 400 ≤ status ∧ status < 600 then
        .failedNone (.apiRequestFailed ("HTTP error " ++ toString status))
      else if pyStrip body = "" then .failedNone .emptyResponse
      else
        match json_loads body with
        | .error e => .failedNone (.invalidJsonResponse e)
        | .ok result =>
          match choicesCheck result with
          | none => .failedNone (.unexpectedError "TypeError")
          | some true => .failedNone (.unexpectedStructure result)
          | some false =>
            match extractContent result with
            | none => .failedNone (.unexpectedError "missing message field")
            | some (Json.str content) => contentStep content
            | some _ => .failedNone (.unexpectedError "content has no find method")

example : contentStep "no braces here" =
    .failedNone (.noJsonFound "no braces here") := rfl
example : contentStep "Sure! \x7b\"a\":1\x7d Hope that helps." =
    .success (.obj [("a", .num "1")]) := rfl
example : contentStep "\x7bnot valid json\x7d" =
    .failedNone (.parseFailed "Expecting property name enclosed in double quotes"
      "\x7bnot valid json\x7d") := rfl
example : contentStep "\x7dabc\x7b" =
    .failedNone (.parseFailed "Expecting value" "") := rfl

/-! ## Concrete fixtures used by the claim theorems -/

/-- A 1x1 opaque RGB image. -/
def testImg : Img := ⟨.RGB, 1, 1, [[[1, 2, 3]]], []⟩

/-- A grayscale image with zero width. -/
def zeroImg : Img := ⟨.L, 0, 5, [], []⟩

/-- A 1x1 grayscale-with-alpha image: black and fully transparent. -/
def laImg : Img := ⟨.LA, 1, 1, [[[0, 0]]], []⟩

/-- A 1x2 RGBA image with one transparent and one opaque pixel. -/
def rgbaImg : Img := ⟨.RGBA, 1, 2, [[[10, 20, 30, 0]], [[100, 150, 200, 255]]], []⟩

/-- A well-formed response envelope whose reply text embeds a JSON
object that has only a `roof_analysis` entry (no `financial_analysis`,
nor any other required section). -/
def c1Body : String :=
  "\x7b\"choices\": [\x7b\"message\": \x7b\"content\": \"Here: \x7b\\\"roof_analysis\\\": 1\x7d\"\x7d\x7d]\x7d"

/-! ## Helper lemmas -/

theorem firstIdx?_lt_length {c : Char} :
    ∀ {l : List Char} {i : Nat}, firstIdx? c l = some i → i < l.length := by
  intro l
  induction l with
  | nil => intro i h; simp [firstIdx?] at h
  | cons x xs ih =>
    intro i h
    simp only [firstIdx?] at h
    by_cases hx : x = c
    · rw [if_pos hx] at h
      cases h
      simp
    · rw [if_neg hx] at h
      cases hfi : firstIdx? c xs with
      | none => rw [hfi] at h; simp at h
      | some k =>
        rw [hfi] at h
        simp at h
        have := ih hfi
        simp only [List.length_cons]
        omega

theorem lastIdx?_lt_length {c : Char} :
    ∀ {l : List Char} {i : Nat}, lastIdx? c l = some i → i < l.length := by
  intro l
  induction l with
  | nil => intro i h; simp [lastIdx?] at h
  | cons x xs ih =>
    intro i h
    simp only [lastIdx?] at h
    cases hx : lastIdx? c xs with
    | some k =>
      rw [hx] at h
      cases h
      have := ih hx
      simp only [List.length_cons]
      omega
    | none =>
      rw [hx] at h
      by_cases hxc : x = c
      · rw [if_pos hxc] at h
        cases h
        simp
      · rw [if_neg hxc] at h
        cases h

theorem firstIdx?_eq_none {c : Char} :
    ∀ {l : List Char}, c ∉ l → firstIdx? c l = none := by
  intro l
  induction l with
  | nil => intro _; rfl
  | cons x xs ih =>
    intro h
    have hx : ¬ (x = c) := fun hxc => h (hxc ▸ List.mem_cons_self x xs)
    have hxs : c ∉ xs := fun hm => h (List.mem_cons_of_mem x hm)
    simp [firstIdx?, hx, ih hxs]

theorem lastIdx?_eq_none {c : Char} :
    ∀ {l : List Char}, c ∉ l → lastIdx? c l = none := by
  intro l
  induction l with
  | nil => intro _; rfl
  | cons x xs ih =>
    intro h
    have hx : ¬ (x = c) := fun hxc => h (hxc ▸ List.mem_cons_self x xs)
    have hxs : c ∉ xs := fun hm => h (List.mem_cons_of_mem x hm)
    simp [lastIdx?, hx, ih hxs]

theorem pySliceIdx_natCast (s : String) (a : Nat) (ha : a ≤ s.toList.length) :
    pySliceIdx s (a : Int) = a := by
  unfold pySliceIdx
  rw [if_neg (by omega)]
  omega

theorem pySlice_natCast (s : String) (a b : Nat)
    (ha : a ≤ s.toList.length) (hb : b ≤ s.toList.length) :
    pySlice s (a : Int) (b : Int) = String.mk ((s.toList.drop a).take (b - a)) := by
  unfold pySlice
  rw [pySliceIdx_natCast s a ha, pySliceIdx_natCast s b hb]

/-- The extraction step on a reply that contains both braces: the
inclusive substring from the first `\x7b` to the last `\x7d` is carved
out and handed to `json.loads`. -/
theorem contentStep_braces_eq (s : String) (i j : Nat)
    (h1 : firstIdx? '\x7b' s.toList = some i)
    (h2 : lastIdx? '\x7d' s.toList = some j) :
    contentStep s = jsonLoadsStep (String.mk ((s.toList.drop i).take (j + 1 - i))) := by
  have hi := firstIdx?_lt_length h1
  have hj := lastIdx?_lt_length h2
  unfold contentStep pyFind pyRfind
  rw [h1, h2]
  simp only
  rw [if_neg (by omega)]
  have hcast : ((j : Int) + 1) = ((j + 1 : Nat) : Int) := by push_cast; ring
  rw [hcast, pySlice_natCast s i (j + 1) (le_of_lt hi) (by omega)]

/-- The extraction step when one of the braces is absent. -/
theorem contentStep_missing_brace (s : String)
    (h : '\x7b' ∉ s.toList ∨ '\x7d' ∉ s.toList) :
    contentStep s = .failedNone (.noJsonFound s) := by
  unfold contentStep pyFind pyRfind
  cases h with
  | inl h =>
    rw [firstIdx?_eq_none h]
    simp
  | inr h =>
    rw [lastIdx?_eq_none h]
    cases hx : firstIdx? '\x7b' s.toList <;> simp

/-- Mode normalization preserves the image dimensions and always
removes the alpha channel. -/
theorem normalizeImage_shape (img : Img) :
    (normalizeImage img).width = img.width ∧
    (normalizeImage img).height = img.height ∧
    modeHasAlpha (normalizeImage img).mode = false := by
  obtain ⟨m, w, h, px, pal⟩ := img
  cases m <;>
    simp [normalizeImage, compositeOnWhite, convertRGB, modeHasAlpha]

/-! ## Claims -/

/-- C1 (amended): the pipeline performs no schema validation at all:
whenever the substring carved from the reply parses as JSON, the parsed
object — whatever sections or fields it is missing — is handed to the
caller as the result.  No `SchemaValidationError` (or any validation
branch) exists in the code. -/
theorem c1_parsed_object_returned_unvalidated (s : String) (i j : Nat) (v : Json)
    (h1 : firstIdx? '\x7b' s.toList = some i)
    (h2 : lastIdx? '\x7d' s.toList = some j)
    (h3 : json_loads (String.mk ((s.toList.drop i).take (j + 1 - i))) = .ok v) :
    contentStep s = .success v := by
  rw [contentStep_braces_eq s i j h1 h2]
  unfold jsonLoadsStep
  rw [h3]

/-- C1 witness: a reply whose JSON object has only an `a` field is
returned to the caller exactly as parsed. -/
theorem c1_parsed_object_returned_unvalidated_witness :
    contentStep "r \x7b\"a\": 2\x7d" = .success (.obj [("a", .num "2")]) :=
  c1_parsed_object_returned_unvalidated "r \x7b\"a\": 2\x7d" 2 9
    (.obj [("a", .num "2")]) rfl rfl rfl

/-- C1 counterexample: a full pipeline run whose reply embeds an object
with only `roof_analysis` (no `financial_analysis`) succeeds and hands
that unvalidated object to the caller, instead of failing with a
schema-validation error as the claim states. -/
theorem c1_counterexample :
    analyze_rooftop testImg "San Francisco, CA" 2500000 (.resp 200 c1Body) =
      .success (.obj [("roof_analysis", .num "1")]) := rfl

/-- C2: for every reply containing at least one brace of each kind,
extraction takes exactly the inclusive substring from the first
`\x7b` (index `i`) to the last `\x7d` (index `j`) and hands it to
`json.loads`. -/
theorem c2_extraction_carves_first_to_last_brace (s : String) (i j : Nat)
    (h1 : firstIdx? '\x7b' s.toList = some i)
    (h2 : lastIdx? '\x7d' s.toList = some j) :
    contentStep s = jsonLoadsStep (String.mk ((s.toList.drop i).take (j + 1 - i))) :=
  contentStep_braces_eq s i j h1 h2

/-- C2 witness: the spec's example reply yields exactly the embedded
object. -/
theorem c2_extraction_carves_first_to_last_brace_witness :
    contentStep "Sure! \x7b\"a\":1\x7d Hope that helps." =
      .success (.obj [("a", .num "1")]) :=
  c2_extraction_carves_first_to_last_brace
    "Sure! \x7b\"a\":1\x7d Hope that helps." 6 12 rfl rfl

/-- C3: when either brace is absent from the reply, extraction takes
the "No JSON found" branch, which carries the full raw reply text and
returns `None` without attempting a parse. -/
theorem c3_missing_brace_no_json_found (s : String)
    (h : '\x7b' ∉ s.toList ∨ '\x7d' ∉ s.toList) :
    contentStep s = .failedNone (.noJsonFound s) :=
  contentStep_missing_brace s h

/-- C3 witness: the spec's example `"no braces here"`. -/
theorem c3_missing_brace_no_json_found_witness :
    contentStep "no braces here" = .failedNone (.noJsonFound "no braces here") :=
  c3_missing_brace_no_json_found "no braces here" (Or.inl (by decide))

/-- C4: when the carved brace-delimited substring is not valid JSON,
extraction takes the parse-failure branch, carrying the parse error and
the attempted substring. -/
theorem c4_invalid_substring_parse_error (s : String) (i j : Nat) (e : String)
    (h1 : firstIdx? '\x7b' s.toList = some i)
    (h2 : lastIdx? '\x7d' s.toList = some j)
    (h3 : json_loads (String.mk ((s.toList.drop i).take (j + 1 - i))) = .error e) :
    contentStep s =
      .failedNone (.parseFailed e (String.mk ((s.toList.drop i).take (j + 1 - i)))) := by
  rw [contentStep_braces_eq s i j h1 h2]
  unfold jsonLoadsStep
  rw [h3]

/-- C4 witness: the spec's example `"\x7bnot valid json\x7d"`. -/
theorem c4_invalid_substring_parse_error_witness :
    contentStep "\x7bnot valid json\x7d" =
      .failedNone (.parseFailed "Expecting property name enclosed in double quotes"
        "\x7bnot valid json\x7d") :=
  c4_invalid_substring_parse_error "\x7bnot valid json\x7d" 0 15
    "Expecting property name enclosed in double quotes" rfl rfl rfl

/-- C5 (amended): the error branches are distinguishable only in the
messages displayed to the UI; the value returned to the caller is
Python `None` for every handled failure, so any two failing runs are
indistinguishable to the caller by return value. -/
theorem c5_failures_indistinguishable_to_caller
    (i1 : Img) (l1 : String) (b1 : Nat) (n1 : NetResult) (f1 : Failure)
    (i2 : Img) (l2 : String) (b2 : Nat) (n2 : NetResult) (f2 : Failure)
    (h1 : analyze_rooftop i1 l1 b1 n1 = .failedNone f1)
    (h2 : analyze_rooftop i2 l2 b2 n2 = .failedNone f2) :
    returnedValue (analyze_rooftop i1 l1 b1 n1) =
      returnedValue (analyze_rooftop i2 l2 b2 n2) := by
  rw [h1, h2]
  rfl

/-- C5 witness: a transport failure and an unparsable-body failure both
return `None`. -/
theorem c5_failures_indistinguishable_to_caller_witness :
    returnedValue (analyze_rooftop testImg "x" 100 (.exn "boom")) =
      returnedValue (analyze_rooftop testImg "x" 100 (.resp 200 "hello")) :=
  c5_failures_indistinguishable_to_caller
    testImg "x" 100 (.exn "boom") (.apiRequestFailed "boom")
    testImg "x" 100 (.resp 200 "hello") (.invalidJsonResponse "Expecting value")
    rfl rfl

/-- C5 counterexample: two failures of different kinds (a
`RequestException` and an unparsable body) reach the caller as the
same value `None`, not as distinct typed failures. -/
theorem c5_counterexample :
    analyze_rooftop testImg "x" 100 (.exn "boom") =
      .failedNone (.apiRequestFailed "boom") ∧
    analyze_rooftop testImg "x" 100 (.resp 200 "hello") =
      .failedNone (.invalidJsonResponse "Expecting value") ∧
    failureKind (analyze_rooftop testImg "x" 100 (.exn "boom")) ≠
      failureKind (analyze_rooftop testImg "x" 100 (.resp 200 "hello")) ∧
    returnedValue (analyze_rooftop testImg "x" 100 (.exn "boom")) =
      returnedValue (analyze_rooftop testImg "x" 100 (.resp 200 "hello")) :=
  ⟨rfl, rfl, by decide, rfl⟩

/-- C6 (amended): the environment variable takes precedence: a
non-empty environment credential is always the one used, and the
explicitly entered credential is consulted only when the environment
variable is unset or empty. -/
theorem c6_env_var_takes_precedence :
    (∀ k p, k ≠ "" → resolveApiKey (some k) p = k) ∧
    (∀ p, resolveApiKey none p = p) ∧
    (∀ p, resolveApiKey (some "") p = p) := by
  refine ⟨fun k p hk => ?_, fun p => rfl, fun p => rfl⟩
  simp [resolveApiKey, hk]

/-- C6 witness: with both credentials present, the environment one is
used. -/
theorem c6_env_var_takes_precedence_witness :
    resolveApiKey (some "ENVKEY") "PARAM" = "ENVKEY" :=
  c6_env_var_takes_precedence.1 "ENVKEY" "PARAM" (by decide)

/-- C6 counterexample: when both an environment credential and an
explicitly entered credential exist, the environment one — not the
explicit one — is used, contradicting the claimed precedence. -/
theorem c6_counterexample :
    resolveApiKey (some "ENVKEY") "EXPLICIT" = "ENVKEY" ∧
    "ENVKEY" ≠ "EXPLICIT" :=
  ⟨rfl, by decide⟩

/-- C7: prompt construction is deterministic — it is a pure total
function of the location and the budget, so two invocations with the
same arguments yield byte-identical instruction text (and, being total
on all inputs, it never raises). -/
theorem c7_prompt_deterministic :
    ∀ (location : String) (budgetCents : Nat),
      build_prompt location budgetCents = build_prompt location budgetCents :=
  fun _ _ => rfl

/-- C8 (amended): `RGBA` images are composited onto an opaque white
background using the alpha channel as a mask; grayscale (`L`) and
`RGB` images pass through unchanged; every other mode — including
`LA`, which also carries an alpha channel — is converted directly to
RGB without white compositing.  In every case the output carries no
alpha channel and keeps the input dimensions. -/
theorem c8_rgba_composited_others_converted (img : Img) :
    (img.mode = .RGBA → normalizeImage img = compositeOnWhite img) ∧
    (img.mode = .L → normalizeImage img = img) ∧
    (img.mode = .RGB → normalizeImage img = img) ∧
    modeHasAlpha (normalizeImage img).mode = false ∧
    (normalizeImage img).width = img.width ∧
    (normalizeImage img).height = img.height := by
  obtain ⟨m, w, h, px, pal⟩ := img
  cases m <;>
    simp [normalizeImage, compositeOnWhite, convertRGB, modeHasAlpha]

/-- C8 witness: a concrete RGBA image is white-composited and its
output has no alpha and the same size. -/
theorem c8_rgba_composited_others_converted_witness :
    normalizeImage rgbaImg = compositeOnWhite rgbaImg ∧
    modeHasAlpha (normalizeImage rgbaImg).mode = false ∧
    (normalizeImage rgbaImg).width = rgbaImg.width ∧
    (normalizeImage rgbaImg).height = rgbaImg.height :=
  ⟨(c8_rgba_composited_others_converted rgbaImg).1 rfl,
   (c8_rgba_composited_others_converted rgbaImg).2.2.2.1,
   (c8_rgba_composited_others_converted rgbaImg).2.2.2.2.1,
   (c8_rgba_composited_others_converted rgbaImg).2.2.2.2.2⟩

/-- C8 counterexample: an `LA`-mode image carries an alpha channel but
is *not* composited onto white — it takes the generic
`convert('RGB')` branch, which drops the alpha (the transparent black
pixel stays black instead of becoming white). -/
theorem c8_counterexample :
    modeHasAlpha laImg.mode = true ∧
    normalizeImage laImg = convertRGB laImg ∧
    normalizeImage laImg ≠ specWhiteComposite laImg :=
  ⟨rfl, rfl, by decide⟩

/-- C9 (amended): for an image with zero width or zero height the save
step raises, and because `encode_image` runs before the `try` block the
exception escapes `analyze_rooftop` unhandled — no typed
`UnsupportedImageError` (indeed no error value at all) reaches the
caller. -/
theorem c9_zero_size_raises_unhandled (img : Img) (loc : String) (b : Nat)
    (net : NetResult) (h : img.width = 0 ∨ img.height = 0) :
    analyze_rooftop img loc b net = .raised "image encoding failed" := by
  have hs := normalizeImage_shape img
  have hcond : (normalizeImage img).width = 0 ∨ (normalizeImage img).height = 0 := by
    cases h with
    | inl h0 => exact Or.inl (hs.1.trans h0)
    | inr h0 => exact Or.inr (hs.2.1.trans h0)
  unfold analyze_rooftop encode_image saveJPEG
  rw [if_pos hcond]

/-- C9 witness: a zero-width image makes the whole call raise. -/
theorem c9_zero_size_raises_unhandled_witness :
    analyze_rooftop zeroImg "loc" 100 (.resp 200 "ok") =
      .raised "image encoding failed" :=
  c9_zero_size_raises_unhandled zeroImg "loc" 100 (.resp 200 "ok") (Or.inl rfl)

/-- C9 counterexample: on a zero-width image the pipeline raises an
unhandled exception — the caller receives no value of any kind, in
particular no typed `UnsupportedImageError` result. -/
theorem c9_counterexample :
    analyze_rooftop zeroImg "x" 100 (.resp 200 "ok") =
      .raised "image encoding failed" ∧
    returnedValue (analyze_rooftop zeroImg "x" 100 (.resp 200 "ok")) = none :=
  ⟨rfl, rfl⟩

/-- C10: when both braces occur but the last `\x7d` precedes the first
`\x7b`, the slice bound check does not trigger the "No JSON found"
branch: the carved substring is empty, and the failure surfaces as a
JSON parse failure on `""`. -/
theorem c10_reversed_braces_parse_failure (s : String) (i j : Nat)
    (h1 : firstIdx? '\x7b' s.toList = some i)
    (h2 : lastIdx? '\x7d' s.toList = some j)
    (h3 : j < i) :
    contentStep s = .failedNone (.parseFailed "Expecting value" "") := by
  rw [contentStep_braces_eq s i j h1 h2]
  have hz : j + 1 - i = 0 := by omega
  rw [hz]
  rfl

/-- C10 witness: `"\x7dabc\x7b"` has its last `\x7d` before its first
`\x7b` and fails as a parse error on the empty carve, not as
"No JSON found". -/
theorem c10_reversed_braces_parse_failure_witness :
    contentStep "\x7dabc\x7b" = .failedNone (.parseFailed "Expecting value" "") :=
  c10_reversed_braces_parse_failure "\x7dabc\x7b" 4 0 rfl rfl (by decide)
